import Mathlib

/-!
Shallow embedding of `js/modules/k6/events/events.go` (package `events`).

The module keeps, per `Events` instance, a `uint32` counter
(`timerStopCounter`) and a mutex-guarded map `timerStops` from timer id to
a stop channel (`map[uint32]chan struct x7b x7d`).  All map mutation in the
Go code happens under `timerStopsLock`, so the sequential state-passing
functions below model exactly the serialized behaviour the lock enforces.

A Go channel `chan struct` used here is a one-shot broadcast signal: it is
`armed` when created and `signaled` once closed.  `close` happens only in
`stopTimerCh`, together with the deletion of the map entry, so we track the
set of closed channels separately from the map keys.
-/

namespace KSixEvents

/-- Machine modulus of the Go `uint32` counter. -/
def U32 : Nat := 2 ^ 32

/-- State of one `Events` module instance: the `timerStopCounter` field
(a `uint32`, kept as a `Nat` already reduced modulo `U32`), the key set of
the `timerStops` map (each key maps to the stop channel allocated for that
id), and the ids whose current stop channel has been closed. -/
structure EventsState where
  timerStopCounter : Nat
  timerStops : List Nat
  closedChans : List Nat
  deriving DecidableEq, Repr

/-- The state built by `NewModuleInstance`: zero counter, empty map. -/
def initState : EventsState :=
  { timerStopCounter := 0, timerStops := [], closedChans := [] }

/-- `getTimerStopCh`: `atomic.AddUint32(&e.timerStopCounter, 1)` returns the
incremented value (wrapping modulo `2^32`) as the fresh id, makes a fresh
(armed) channel, and stores it in the map under the lock.  Map assignment
overwrites any entry already at that key, and the fresh channel replaces any
previously closed channel for a reused id. -/
def getTimerStopCh (s : EventsState) : Nat × EventsState :=
  let id := (s.timerStopCounter + 1) % U32
  (id, { timerStopCounter := id
         timerStops := id :: s.timerStops.erase id
         closedChans := s.closedChans.erase id })

/-- `stopTimerCh`: under the lock, look up `id`; if absent return `false`;
if present delete the entry, close its channel, and return `true`. -/
def stopTimerCh (s : EventsState) (id : Nat) : Bool × EventsState :=
  if id ∈ s.timerStops then
    (true, { s with timerStops := s.timerStops.erase id
                    closedChans := id :: s.closedChans })
  else
    (false, s)

/-- `clearTimeout`: calls `e.stopTimerCh(id)` discarding the boolean. -/
def clearTimeout (s : EventsState) (id : Nat) : EventsState :=
  (stopTimerCh s id).2

/-- `clearInterval`: calls `e.stopTimerCh(id)` discarding the boolean. -/
def clearInterval (s : EventsState) (id : Nat) : EventsState :=
  (stopTimerCh s id).2

/-- Well-formedness of the map key list: a Go map has unique keys. -/
def WF (s : EventsState) : Prop := s.timerStops.Nodup

instance (s : EventsState) : Decidable (WF s) := by
  unfold WF; infer_instance

/-! ## JavaScript side: values, the runtime, and `call` -/

/-- A goja script value, as far as this module observes it. -/
inductive JSValue
  | undef
  | obj (n : Nat)
  | num (n : Int)
  | str (s : String)
  deriving DecidableEq, Repr

/-- The goja runtime, of which the module only uses `GlobalObject()`. -/
structure Runtime where
  globalObject : JSValue
  deriving DecidableEq, Repr

/-- One invocation of a user callback: the `this` receiver and the
argument list handed to `goja.Callable`. -/
structure Invocation where
  thisArg : JSValue
  args : List JSValue
  deriving DecidableEq, Repr

/-- `call`: `callback(e.vu.Runtime().GlobalObject(), args...)` — invokes the
callback with `this` bound to the runtime global object and the captured
arguments, returning the callback error (or `none` for nil). -/
def call (rt : Runtime) (callback : Invocation → Option String)
    (args : List JSValue) : Option String :=
  callback (Invocation.mk rt.globalObject args)

/-- A unit of work handed to `runOnLoop` (the event-loop executor):
either the closure invoking the user callback through `e.call`, or
`e.noop`. -/
inductive UnitOfWork
  | invoke (rt : Runtime) (args : List JSValue)
  | noop
  deriving DecidableEq, Repr

/-- Running a unit of work on the executor: the invoke closure performs
`e.call(callback, args)`; `noop()` returns nil. -/
def runUnit (cb : Invocation → Option String) : UnitOfWork → Option String
  | UnitOfWork.invoke rt args => call rt cb args
  | UnitOfWork.noop => none

/-! ## The one-shot worker (`setTimeout` goroutine)

`time.Timer` model: the timer fires at most once, sending a single value on
the buffered channel `timer.C`.  `expired` records that the timer has fired
or been stopped (after which it will never send again); `pending` records
that a sent value sits unconsumed in the channel buffer. -/

/-- State of the `time.Timer` owned by a one-shot worker. -/
structure GoTimer where
  expired : Bool
  pending : Bool
  deriving DecidableEq, Repr

/-- `timer.Stop()`: returns `true` iff it stopped the timer before it fired
(or was stopped); afterwards the timer will never fire. -/
def timerStop (t : GoTimer) : Bool × GoTimer :=
  (!t.expired, { t with expired := true })

/-- A receive from `timer.C`: consumes the buffered fire event when one is
pending; on an empty channel of an expired timer nothing will ever be sent
again, so the receive blocks forever (`none`). -/
def drainTimerC (t : GoTimer) : Option GoTimer :=
  if t.pending then some { t with pending := false } else none

/-- The three branches of the one-shot worker select (lines 102-112):
the timer fires, the stop channel is closed, or the VU context is done.
Go select semantics resolve the race to exactly one branch. -/
inductive TimerEvent
  | timerFired
  | stopReceived
  | ctxDone
  deriving DecidableEq, Repr

/-- Timer state at the instant the select resolves.  Taking the
timer branch consumes the fire event; in the other two branches the timer
may or may not have fired concurrently (`fired`), and an unconsumed fire
sits in the buffer. -/
def timerAfterSelect (ev : TimerEvent) (fired : Bool) : GoTimer :=
  match ev with
  | TimerEvent.timerFired => { expired := true, pending := false }
  | TimerEvent.stopReceived => { expired := fired, pending := fired }
  | TimerEvent.ctxDone => { expired := fired, pending := fired }

/-- The deferred cleanup of the one-shot worker (lines 95-100):
`e.stopTimerCh(id)`, then `if !timer.Stop() x7b <-timer.C x7d`.  The result
timer is `none` when that receive blocks forever, i.e. the cleanup (and the
goroutine) never completes. -/
def timeoutDeferred (s : EventsState) (id : Nat) (t : GoTimer) :
    EventsState × Option GoTimer :=
  let s1 := (stopTimerCh s id).2
  let r := timerStop t
  if r.1 then (s1, some r.2) else (s1, drainTimerC r.2)

/-- Full run of the one-shot worker goroutine after its select resolves to
`ev`: the branch body makes exactly the submissions written in that branch
(lines 102-112), then the deferred cleanup runs. Returns the submissions,
the registry state after cleanup, and the final timer state (`none` when
the cleanup blocked forever). -/
def timeoutWorkerRun (rt : Runtime) (args : List JSValue) (ev : TimerEvent)
    (fired : Bool) (s : EventsState) (id : Nat) :
    List UnitOfWork × EventsState × Option GoTimer :=
  let subs : List UnitOfWork :=
    match ev with
    | TimerEvent.timerFired => [UnitOfWork.invoke rt args]
    | TimerEvent.stopReceived => [UnitOfWork.noop]
    | TimerEvent.ctxDone => [UnitOfWork.noop]
  let c := timeoutDeferred s id (timerAfterSelect ev fired)
  (subs, c.1, c.2)

/-! ## Delay conversion and the ticker (`setInterval` goroutine) -/

/-- Truncation toward zero, the semantics of Go's float64-to-int64
conversion in `time.Duration(delay * float64(time.Millisecond))`. -/
def ratTrunc (q : ℚ) : ℤ := if 0 ≤ q then ⌊q⌋ else ⌈q⌉

/-- Duration in nanoseconds built from a delay in milliseconds
(`time.Millisecond` is 1e6 nanoseconds). -/
def durationOfMs (delay : ℚ) : ℤ := ratTrunc (delay * 1000000)

/-- Models Go stdlib `time.NewTicker`, which panics when the duration is
not positive: "non-positive interval for NewTicker". -/
def newTicker (d : ℤ) : Except String Unit :=
  if d ≤ 0 then Except.error "non-positive interval for NewTicker"
  else Except.ok Unit.unit

/-- First action of the spawned interval worker (line 127): create the
ticker from the unclamped, unvalidated delay. -/
def intervalWorkerInit (delay : ℚ) : Except String Unit :=
  newTicker (durationOfMs delay)

/-! ## The public scheduling entry points (registry-visible part)

`setTimeout` (lines 85-91): acquire a `runOnLoop` token, allocate the
id/stop-channel pair, clamp a negative delay to zero, spawn the worker,
return the id.  `setInterval` (lines 122-124): same, without any clamp.
Each returns the id, the delay value the worker is armed with, and the
registry state after allocation. -/

def setTimeout (s : EventsState) (delay : ℚ) : Nat × ℚ × EventsState :=
  let p := getTimerStopCh s
  let d := if delay < 0 then 0 else delay
  (p.1, d, p.2)

def setInterval (s : EventsState) (delay : ℚ) : Nat × ℚ × EventsState :=
  let p := getTimerStopCh s
  (p.1, delay, p.2)

/-! ## The interval tick protocol (lines 135-139)

On a tick the worker submits, with the token it currently holds, the
closure `func() error x7b runOnLoop = e.vu.RegisterCallback(); return
e.call(callback, args) x7d`.  The token re-acquisition is the first
statement of the submitted closure, executed later on the event loop, not
an action of the worker before the submission. -/

/-- The three observable actions of one handled tick. -/
inductive IntervalAction
  | submitTick
  | acquireToken
  | invokeCallback
  deriving DecidableEq, Repr

/-- Body of the closure submitted on a tick, in source order (lines
137-138): reassign `runOnLoop` to a fresh `RegisterCallback` token, then
invoke the callback through `e.call`. -/
def tickUnitBody : List IntervalAction :=
  [IntervalAction.acquireToken, IntervalAction.invokeCallback]

/-- Serialized action trace of one handled tick: the worker's submission,
followed by the submitted closure's body once the executor runs it. -/
def tickTrace : List IntervalAction := IntervalAction.submitTick :: tickUnitBody

/-- The unit of work the interval worker submits on a tick: it ends in
`e.call(callback, args)`, the same invocation path as the one-shot worker. -/
def intervalTickUnit (rt : Runtime) (args : List JSValue) : UnitOfWork :=
  UnitOfWork.invoke rt args

/-! ## Iterated allocation (for the id counter) -/

/-- State after `n` successive `getTimerStopCh` allocations. -/
def allocIter : Nat → EventsState → EventsState
  | 0, s => s
  | n + 1, s => (getTimerStopCh (allocIter n s)).2

/-- The id returned by the k-th allocation (k ≥ 1) on a fresh instance. -/
def idAt (k : Nat) : Nat := (getTimerStopCh (allocIter (k - 1) initState)).1

/-- Concrete registry state used by witnesses: counter at 2, ids 1 and 2
live, no channel closed yet. -/
def sampleState : EventsState :=
  { timerStopCounter := 2, timerStops := [2, 1], closedChans := [] }

/-- Concrete runtime used by witnesses. -/
def rtZero : Runtime := { globalObject := JSValue.obj 0 }

/-! ## Invariant lemmas on the registry -/

theorem wf_initState : WF initState := List.nodup_nil

theorem wf_getTimerStopCh (s : EventsState) (h : WF s) :
    WF (getTimerStopCh s).2 := by
  unfold WF getTimerStopCh at *
  simp only [List.nodup_cons]
  exact ⟨List.Nodup.not_mem_erase h, List.Nodup.erase _ h⟩

theorem wf_stopTimerCh (s : EventsState) (id : Nat) (h : WF s) :
    WF (stopTimerCh s id).2 := by
  unfold WF stopTimerCh at *
  by_cases hm : id ∈ s.timerStops
  · simp only [hm, if_true]
    exact List.Nodup.erase _ h
  · simp only [hm, if_false]
    exact h

/-- When the id is not a key of the map, `stopTimerCh` returns `false` and
the whole state is untouched. -/
theorem stopTimerCh_absent (s : EventsState) (id : Nat)
    (hm : id ∉ s.timerStops) : stopTimerCh s id = (false, s) := by
  simp [stopTimerCh, hm]

/-- After `stopTimerCh`, the id is no longer a key of the map (the Go map
delete removes the unique entry at that key). -/
theorem stopTimerCh_not_mem (s : EventsState) (id : Nat) (h : WF s) :
    id ∉ (stopTimerCh s id).2.timerStops := by
  unfold stopTimerCh
  by_cases hm : id ∈ s.timerStops
  · simp only [hm, if_true]
    exact List.Nodup.not_mem_erase h
  · simp only [hm, if_false]
    exact not_false

/-! ## Counter arithmetic -/

theorem allocIter_counter (n : Nat) :
    (allocIter n initState).timerStopCounter = n % U32 := by
  induction n with
  | zero => simp [allocIter, initState]
  | succ n ih =>
      show ((allocIter n initState).timerStopCounter + 1) % U32 = (n + 1) % U32
      rw [ih]
      unfold U32
      omega

theorem idAt_eq (k : Nat) : idAt k = ((k - 1) % U32 + 1) % U32 := by
  show ((allocIter (k - 1) initState).timerStopCounter + 1) % U32 = _
  rw [allocIter_counter]

/-! ## Claim theorems -/

/-- C1: `stopTimerCh` (Cancel) looks up the id under the lock; an absent id
yields `false` with the table (and whole state) unchanged; a present id is
removed from the table, its channel is closed (signal transitions to
signaled), and the call returns `true`. -/
theorem stopTimerCh_spec (s : EventsState) (id : Nat) (h : WF s) :
    (id ∉ s.timerStops → stopTimerCh s id = (false, s)) ∧
    (id ∈ s.timerStops →
      (stopTimerCh s id).1 = true ∧
      (stopTimerCh s id).2.timerStops = s.timerStops.erase id ∧
      id ∉ (stopTimerCh s id).2.timerStops ∧
      id ∈ (stopTimerCh s id).2.closedChans ∧
      (stopTimerCh s id).2.timerStopCounter = s.timerStopCounter) := by
  refine ⟨stopTimerCh_absent s id, ?_⟩
  intro hm
  have hrem := stopTimerCh_not_mem s id h
  refine ⟨?_, ?_, hrem, ?_, ?_⟩ <;> simp [stopTimerCh, hm]

theorem stopTimerCh_spec_witness :
    WF sampleState ∧
    ((1 ∉ sampleState.timerStops → stopTimerCh sampleState 1 = (false, sampleState)) ∧
     (1 ∈ sampleState.timerStops →
       (stopTimerCh sampleState 1).1 = true ∧
       (stopTimerCh sampleState 1).2.timerStops = sampleState.timerStops.erase 1 ∧
       1 ∉ (stopTimerCh sampleState 1).2.timerStops ∧
       1 ∈ (stopTimerCh sampleState 1).2.closedChans ∧
       (stopTimerCh sampleState 1).2.timerStopCounter = sampleState.timerStopCounter)) :=
  ⟨by decide, stopTimerCh_spec sampleState 1 (by decide)⟩

/-- C2: evaluation of the one-shot worker on its three outcomes.  On every
outcome the worker's registry entry is gone after the deferred cleanup, and
on cancellation or interruption the timer resource is released with no
pending fire event.  But on the delay-elapsed outcome the select has
already consumed the fire event, `timer.Stop()` returns false, and the
deferred receive from `timer.C` blocks forever (`none`): the worker never
terminates, contradicting the claimed draining discipline. -/
theorem setTimeout_worker_cleanup (rt : Runtime) (args : List JSValue)
    (fired : Bool) (s : EventsState) (id : Nat) (h : WF s) :
    (∀ ev, id ∉ (timeoutWorkerRun rt args ev fired s id).2.1.timerStops) ∧
    (timeoutWorkerRun rt args TimerEvent.stopReceived fired s id).2.2 =
      some (GoTimer.mk true false) ∧
    (timeoutWorkerRun rt args TimerEvent.ctxDone fired s id).2.2 =
      some (GoTimer.mk true false) ∧
    (timeoutWorkerRun rt args TimerEvent.timerFired fired s id).2.2 = none := by
  refine ⟨?_, ?_, ?_, ?_⟩
  · intro ev
    have hrem := stopTimerCh_not_mem s id h
    cases ev <;> cases fired <;>
      simpa [timeoutWorkerRun, timeoutDeferred, timerAfterSelect, timerStop,
             drainTimerC] using hrem
  · cases fired <;>
      simp [timeoutWorkerRun, timeoutDeferred, timerAfterSelect, timerStop,
            drainTimerC]
  · cases fired <;>
      simp [timeoutWorkerRun, timeoutDeferred, timerAfterSelect, timerStop,
            drainTimerC]
  · simp [timeoutWorkerRun, timeoutDeferred, timerAfterSelect, timerStop,
          drainTimerC]

theorem setTimeout_worker_cleanup_witness :
    WF sampleState ∧
    ((∀ ev, 1 ∉ (timeoutWorkerRun rtZero [] ev false sampleState 1).2.1.timerStops) ∧
     (timeoutWorkerRun rtZero [] TimerEvent.stopReceived false sampleState 1).2.2 =
       some (GoTimer.mk true false) ∧
     (timeoutWorkerRun rtZero [] TimerEvent.ctxDone false sampleState 1).2.2 =
       some (GoTimer.mk true false) ∧
     (timeoutWorkerRun rtZero [] TimerEvent.timerFired false sampleState 1).2.2 = none) :=
  ⟨by decide, setTimeout_worker_cleanup rtZero [] false sampleState 1 (by decide)⟩

/-- C3 counterexample: in the serialized trace of one handled interval
tick, the submission of the tick's unit of work happens strictly before
the fresh token is re-acquired — the re-acquisition is not performed
before submitting, refuting the claim as stated. -/
theorem tick_token_not_acquired_before_submit :
    tickTrace.indexOf IntervalAction.submitTick <
      tickTrace.indexOf IntervalAction.acquireToken ∧
    ¬ tickTrace.indexOf IntervalAction.acquireToken <
      tickTrace.indexOf IntervalAction.submitTick := by decide

/-- C3 amended: the fresh executor-registration token for the next
iteration is acquired as the first statement of the submitted unit of
work, before the current tick's callback is invoked. -/
theorem tick_token_acquired_before_callback :
    tickUnitBody.indexOf IntervalAction.acquireToken <
      tickUnitBody.indexOf IntervalAction.invokeCallback ∧
    tickTrace.indexOf IntervalAction.acquireToken <
      tickTrace.indexOf IntervalAction.invokeCallback := by decide

/-- C4 counterexample: the id counter is a wrapping `uint32`: the
2^32-nd allocation returns id 0 (not strictly positive, smaller than every
earlier id), and the (2^32+1)-st allocation returns the same id as the
first — ids are reused. -/
theorem idAt_wraparound :
    idAt U32 = 0 ∧ idAt (U32 + 1) = idAt 1 ∧ idAt 1 = 1 := by
  refine ⟨?_, ?_, ?_⟩ <;> rw [idAt_eq] <;> unfold U32 <;> norm_num
  rw [idAt_eq]
  unfold U32
  norm_num

/-- C4 amended: ids are the successive values of a counter incremented
modulo 2^32; within the first 2^32 − 1 allocations they are strictly
increasing, pairwise distinct and strictly positive. -/
theorem idAt_strictMono (j k : Nat) (hj : 0 < j) (hjk : j < k)
    (hk : k < U32) : 0 < idAt j ∧ idAt j < idAt k := by
  rw [idAt_eq, idAt_eq]
  unfold U32 at *
  omega

theorem idAt_strictMono_witness :
    0 < 1 ∧ 1 < 2 ∧ 2 < U32 ∧ (0 < idAt 1 ∧ idAt 1 < idAt 2) :=
  ⟨Nat.one_pos, Nat.one_lt_two, by unfold U32; norm_num,
   idAt_strictMono 1 2 Nat.one_pos Nat.one_lt_two (by unfold U32; norm_num)⟩

/-- C5: for every resolution of the one-shot worker's three-way race,
exactly one unit of work is submitted to the executor (never two); but on
the delay-elapsed resolution the deferred drain blocks forever, so the
worker does not reach its terminal state on that path. -/
theorem setTimeout_one_submission (rt : Runtime) (args : List JSValue)
    (ev : TimerEvent) (fired : Bool) (s : EventsState) (id : Nat) :
    (timeoutWorkerRun rt args ev fired s id).1.length = 1 ∧
    (timeoutWorkerRun rt args TimerEvent.timerFired fired s id).2.2 = none := by
  refine ⟨?_, ?_⟩
  · cases ev <;> rfl
  · simp [timeoutWorkerRun, timeoutDeferred, timerAfterSelect, timerStop,
          drainTimerC]

/-- C6: cancellation is idempotent: once `stopTimerCh` has run for an id,
a second `stopTimerCh` on the same id returns `false` and leaves the state
unchanged. -/
theorem stopTimerCh_idempotent (s : EventsState) (id : Nat) (h : WF s) :
    stopTimerCh (stopTimerCh s id).2 id = (false, (stopTimerCh s id).2) :=
  stopTimerCh_absent _ _ (stopTimerCh_not_mem s id h)

theorem stopTimerCh_idempotent_witness :
    WF sampleState ∧
    stopTimerCh (stopTimerCh sampleState 1).2 1 = (false, (stopTimerCh sampleState 1).2) :=
  ⟨by decide, stopTimerCh_idempotent sampleState 1 (by decide)⟩

/-- C7: `setTimeout` with a negative delay silently clamps it to zero and
behaves exactly as with delay zero; the allocation still happens and the
returned id is a live key of the registry. -/
theorem setTimeout_negative_clamped (s : EventsState) (delay : ℚ)
    (h : delay < 0) :
    setTimeout s delay = setTimeout s 0 ∧
    (setTimeout s delay).2.1 = 0 ∧
    (setTimeout s delay).1 ∈ (setTimeout s delay).2.2.timerStops := by
  have hd : (if delay < 0 then (0 : ℚ) else delay) = 0 := if_pos h
  refine ⟨?_, ?_, ?_⟩
  · simp [setTimeout, hd]
  · simp [setTimeout, hd]
  · simp [setTimeout, getTimerStopCh]

theorem setTimeout_negative_clamped_witness :
    ((-1 : ℚ) < 0) ∧
    (setTimeout initState (-1) = setTimeout initState 0 ∧
     (setTimeout initState (-1)).2.1 = 0 ∧
     (setTimeout initState (-1)).1 ∈ (setTimeout initState (-1)).2.2.timerStops) :=
  ⟨by norm_num, setTimeout_negative_clamped initState (-1) (by norm_num)⟩

/-- C8: `clearTimeout` and `clearInterval` are extensionally the same
operation — both are exactly `stopTimerCh` with the boolean discarded —
and on any live id the shared primitive succeeds. -/
theorem clearTimeout_eq_clearInterval (s : EventsState) (id : Nat) :
    clearTimeout s id = clearInterval s id ∧
    clearTimeout s id = (stopTimerCh s id).2 ∧
    clearInterval s id = (stopTimerCh s id).2 ∧
    (id ∈ s.timerStops → (stopTimerCh s id).1 = true) := by
  refine ⟨rfl, rfl, rfl, ?_⟩
  intro hm
  simp [stopTimerCh, hm]

theorem clearTimeout_eq_clearInterval_witness :
    clearTimeout sampleState 1 = clearInterval sampleState 1 ∧
    (stopTimerCh sampleState 1).1 = true :=
  ⟨(clearTimeout_eq_clearInterval sampleState 1).1,
   (clearTimeout_eq_clearInterval sampleState 1).2.2.2 (by decide)⟩

/-- C9: `setInterval` hands the period to the worker unclamped and
unvalidated, and the worker's first action — `time.NewTicker` on the
converted duration — panics for every period ≤ 0. -/
theorem setInterval_nonpos_period_panics (s : EventsState) (delay : ℚ)
    (h : delay ≤ 0) :
    (setInterval s delay).2.1 = delay ∧
    intervalWorkerInit delay =
      Except.error "non-positive interval for NewTicker" := by
  refine ⟨rfl, ?_⟩
  have hq : delay * 1000000 ≤ 0 := by nlinarith
  have hd : durationOfMs delay ≤ 0 := by
    unfold durationOfMs ratTrunc
    by_cases h0 : 0 ≤ delay * 1000000
    · have : delay * 1000000 = 0 := le_antisymm hq h0
      rw [if_pos h0, this]
      simp
    · rw [if_neg h0]
      exact Int.ceil_le.mpr (by exact_mod_cast hq)
  unfold intervalWorkerInit newTicker
  rw [if_pos hd]

theorem setInterval_nonpos_period_panics_witness :
    ((0 : ℚ) ≤ 0) ∧
    ((setInterval initState 0).2.1 = 0 ∧
     intervalWorkerInit 0 = Except.error "non-positive interval for NewTicker") :=
  ⟨le_refl 0, setInterval_nonpos_period_panics initState 0 (le_refl 0)⟩

/-- C10: the unit of work submitted on a one-shot fire and the unit
submitted on an interval tick both run `e.call`, which invokes the user
callback with `this` bound to the runtime's global object and the captured
extra arguments passed through unchanged. -/
theorem call_binds_globalObject (rt : Runtime) (cb : Invocation → Option String)
    (args : List JSValue) (s : EventsState) (id : Nat) (fired : Bool) :
    (timeoutWorkerRun rt args TimerEvent.timerFired fired s id).1 =
      [UnitOfWork.invoke rt args] ∧
    intervalTickUnit rt args = UnitOfWork.invoke rt args ∧
    runUnit cb (UnitOfWork.invoke rt args) = cb (Invocation.mk rt.globalObject args) ∧
    (Invocation.mk rt.globalObject args).thisArg = rt.globalObject ∧
    (Invocation.mk rt.globalObject args).args = args :=
  ⟨rfl, rfl, rfl, rfl, rfl⟩

end KSixEvents
